import Mathlib

/-!
Verification of the SolQuery tool-routing and multi-action aggregation core
(solquery/main.py, solquery/services/llm_service.py,
solquery/services/data_sources.py, solquery/services/tool_definitions.py).

The embedding models Python values by the inductive type `Value`; Python
`None` is `Value.none`, Pydantic model objects (which are not dicts and have
no `error` key access) are `Value.obj`.  External collaborators that perform
network or LLM I/O (Helius balance fetches, the portfolio service, the
sentiment orchestration, and the Gemini routing call) are abstracted as
oracle fields of the `Collaborators` structure; the four pure mock services
of data_sources.py are embedded concretely from the source.  Python dicts
are insertion-ordered association lists; assignment keeps the position of an
existing key and appends a fresh one, exactly as CPython does.
-/

namespace SolQuery

/-- A Python runtime value, as far as the routing/aggregation core inspects
it.  `obj` stands for a non-dict Python object such as a Pydantic model
(truthy, not a dict, not `None`); its string field abstracts `str(object)`. -/
inductive Value where
  | none
  | str (s : String)
  | int (n : Int)
  | bool (b : Bool)
  | list (xs : List Value)
  | dict (entries : List (String × Value))
  | obj (descr : String)

/-- Python truthiness (`bool(v)`), on the fragment of values we model. -/
def pyTruthy : Value → Bool
  | .none => false
  | .str s => !s.data.isEmpty
  | .int n => n != 0
  | .bool b => b
  | .list xs => !xs.isEmpty
  | .dict es => !es.isEmpty
  | .obj _ => true

/-- `v is None` in Python. -/
def Value.isNone : Value → Bool
  | .none => true
  | _ => false

/-- Whether the value is a Python dict (`isinstance(v, dict)`). -/
def Value.isDict : Value → Bool
  | .dict _ => true
  | _ => false

/-- Lookup in an insertion-ordered association list (first match). -/
def dictGet : List (String × Value) → String → Option Value
  | [], _ => none
  | (k, v) :: rest, key => if k = key then some v else dictGet rest key

/-- Python `d[k] = v`: replace in place when the key exists, else append. -/
def dictInsert (d : List (String × Value)) (key : String) (v : Value) :
    List (String × Value) :=
  if d.any (fun kv => kv.1 == key) then
    d.map (fun kv => if kv.1 = key then (key, v) else kv)
  else d ++ [(key, v)]

/-- Python `v.get(k)` on a dict, `None` when absent or when `v` is not a
dict (the source only applies it after an `isinstance(v, dict)` test or to
known dicts). -/
def pyGet (v : Value) (key : String) : Value :=
  match v with
  | .dict es => (dictGet es key).getD .none
  | _ => .none

/-- ASCII lower-casing of one character (`str.lower` on the ASCII strings
this code base compares). -/
def lowerChar (c : Char) : Char :=
  if 'A' ≤ c ∧ c ≤ 'Z' then Char.ofNat (c.toNat + 32) else c

/-- ASCII upper-casing of one character (`str.upper`). -/
def upperChar (c : Char) : Char :=
  if 'a' ≤ c ∧ c ≤ 'z' then Char.ofNat (c.toNat - 32) else c

/-- `s.lower()` for the ASCII strings compared by the source. -/
def strToLower (s : String) : String := ⟨s.toList.map lowerChar⟩

/-- `s.upper()` for the ASCII strings compared by the source. -/
def strToUpper (s : String) : String := ⟨s.toList.map upperChar⟩

/-- Whether `pat` is a prefix of the character list. -/
def listStartsWith : List Char → List Char → Bool
  | [], _ => true
  | _ :: _, [] => false
  | a :: as, b :: bs => a == b && listStartsWith as bs

/-- Whether `pat` occurs as a contiguous sublist. -/
def listHasSub (pat : List Char) : List Char → Bool
  | [] => pat.isEmpty
  | c :: rest => listStartsWith pat (c :: rest) || listHasSub pat rest

/-- Python `pat in s` (substring containment). -/
def strContains (s pat : String) : Bool := listHasSub pat.toList s.toList

mutual
/-- Python `==` on the values we model.  Scalars compare as in Python
(including `True == 1`); lists and dicts compare structurally, dicts in
insertion order (an approximation of the order-insensitive Python dict
equality; the source only ever compares scalars).  Distinct object
identities compare unequal. -/
def pyEq : Value → Value → Bool
  | .none, .none => true
  | .str a, .str b => a == b
  | .int a, .int b => a == b
  | .bool a, .bool b => a == b
  | .bool a, .int b => (if a then (1 : Int) else 0) == b
  | .int a, .bool b => a == (if b then (1 : Int) else 0)
  | .list a, .list b => pyEqList a b
  | .dict a, .dict b => pyEqEntries a b
  | _, _ => false
def pyEqList : List Value → List Value → Bool
  | [], [] => true
  | a :: as, b :: bs => pyEq a b && pyEqList as bs
  | _, _ => false
def pyEqEntries : List (String × Value) → List (String × Value) → Bool
  | [], [] => true
  | (k, a) :: as, (k2, b) :: bs => k == k2 && pyEq a b && pyEqEntries as bs
  | _, _ => false
end

mutual
/-- Python `repr(v)` (up to string-escape details, which the source never
round-trips). -/
def pyRepr : Value → String
  | .none => "None"
  | .str s => "\x27" ++ s ++ "\x27"
  | .int n => toString n
  | .bool b => if b then "True" else "False"
  | .list xs => "[" ++ pyReprList xs ++ "]"
  | .dict es => "\x7b" ++ pyReprEntries es ++ "\x7d"
  | .obj d => d
def pyReprList : List Value → String
  | [] => ""
  | [v] => pyRepr v
  | v :: rest => pyRepr v ++ ", " ++ pyReprList rest
def pyReprEntries : List (String × Value) → String
  | [] => ""
  | [(k, v)] => "\x27" ++ k ++ "\x27: " ++ pyRepr v
  | (k, v) :: rest => "\x27" ++ k ++ "\x27: " ++ pyRepr v ++ ", " ++ pyReprEntries rest
end

/-- Python `str(v)` (used by f-string interpolation in the source). -/
def pyStr : Value → String
  | .str s => s
  | v => pyRepr v

/-- Python type name, as it appears in AttributeError messages. -/
def pyTypeName : Value → String
  | .none => "NoneType"
  | .str _ => "str"
  | .int _ => "int"
  | .bool _ => "bool"
  | .list _ => "list"
  | .dict _ => "dict"
  | .obj _ => "object"

/-- Message of the AttributeError raised by `v.lower()` on a non-string. -/
def attrLowerErr (v : Value) : String :=
  "\x27" ++ pyTypeName v ++ "\x27 object has no attribute \x27lower\x27"

/-- Message of the AttributeError raised by `v.upper()` on a non-string. -/
def attrUpperErr (v : Value) : String :=
  "\x27" ++ pyTypeName v ++ "\x27 object has no attribute \x27upper\x27"

/-- Outcome of evaluating one Python expression at the executor boundary:
either a returned value or a raised exception (carrying `str(e)`). -/
inductive ExecOutcome where
  | ok (v : Value)
  | exn (msg : String)

/-! ### Mock Fukuoka data (data_sources.py, module level) -/

/-- `MOCK_FUKUOKA_COWORKING_SPACES` from data_sources.py. -/
def MOCK_FUKUOKA_COWORKING_SPACES : List Value := [
  .dict [("id", .str "cw1"), ("name", .str "Fukuoka Creative Spark Hub"),
    ("category", .str "co-working space"), ("area", .str "Tenjin"),
    ("accepts_solana_payments", .bool true),
    ("details", .str "Popular with tech nomads, 20 USDC/day pass."),
    ("rate_info", .str "20 USDC/day")],
  .dict [("id", .str "cw2"), ("name", .str "Canal City Co-Work Central"),
    ("category", .str "co-working space"), ("area", .str "Hakata"),
    ("accepts_solana_payments", .bool false),
    ("details", .str "Modern facilities, near shopping."),
    ("rate_info", .str "¥3000/day")],
  .dict [("id", .str "cw3"), ("name", .str "Riverside Work & Cafe"),
    ("category", .str "co-working space"), ("area", .str "Nakasu"),
    ("accepts_solana_payments", .bool true),
    ("details", .str "Scenic views, also a cafe. Accepts SOL directly."),
    ("rate_info", .str "Equivalent of ¥2500 in SOL/day")]]

/-- `MOCK_FUKUOKA_RESTAURANTS` from data_sources.py. -/
def MOCK_FUKUOKA_RESTAURANTS : List Value := [
  .dict [("id", .str "r1"), ("name", .str "Hakata Ramen Zen"),
    ("category", .str "restaurant"), ("area", .str "Hakata"),
    ("accepts_solana_payments", .bool false),
    ("details", .str "Famous for Tonkotsu ramen.")],
  .dict [("id", .str "r2"), ("name", .str "Tenjin Tempura Grill"),
    ("category", .str "restaurant"), ("area", .str "Tenjin"),
    ("accepts_solana_payments", .bool true),
    ("details", .str "Accepts USDC for meals over ¥5000.")]]

/-- `MOCK_FUKUOKA_EVENTS` from data_sources.py. -/
def MOCK_FUKUOKA_EVENTS : List Value := [
  .dict [("id", .str "ev1"), ("name", .str "Hakata Dontaku Port Festival"),
    ("date", .str "Next Weekend (May 17-18, 2025)"),
    ("description", .str "One of Fukuoka\x27s largest festivals with parades and performances."),
    ("accepts_crypto", .bool false),
    ("payment_info", .str "Tickets typically via standard vendors. Some street food stalls might accept mobile payments or cash; crypto unlikely for official tickets.")],
  .dict [("id", .str "ev2"), ("name", .str "Solana x Fukuoka Dev Meetup"),
    ("date", .str "May 20, 2025"),
    ("description", .str "Local developer meetup discussing Web3 and Solana."),
    ("accepts_crypto", .bool true),
    ("payment_info", .str "Free entry, some merch might be available for SOL/USDC.")]]

/-- `MOCK_CRYPTO_PAYMENT_INFO` from data_sources.py, in insertion order. -/
def MOCK_CRYPTO_PAYMENT_INFO : List (String × String) := [
  ("setting up phantom wallet", "To set up a Phantom wallet for Solana: 1. Download the Phantom extension for your browser or the mobile app from phantom.app. 2. Create a new wallet and securely save your secret recovery phrase. 3. You can then add SOL or SPL tokens like USDC."),
  ("benefits of usdc for shops in fukuoka", "For shops in Fukuoka, accepting USDC on Solana means very low transaction fees (less than $0.01), near-instant settlement (seconds), and access to a global customer base of crypto users and digital nomads. It avoids traditional card fees."),
  ("how to buy sol for a tourist", "As a tourist, you can buy SOL or USDC on Solana from major international crypto exchanges like Coinbase, Binance, or Kraken using your home currency/cards. Then, transfer it to your self-custody Solana wallet (e.g., Phantom) to use."),
  ("solana pay", "Solana Pay is a specification that allows merchants to easily accept SOL or other Solana-based tokens like USDC directly from customer wallets, often via QR codes. It\x27s fast, low-cost, and becoming more common.")]

/-! ### Pure mock services (data_sources.py)

These four service functions perform no I/O; they are embedded directly
from the source.  Each models the Python function body, including the
AttributeError a non-string argument would raise at `.lower()`/`.upper()`;
`print` calls are dropped. -/

/-- Python `v.get(k, default)` on a dict. -/
def pyGetD (v : Value) (key : String) (dflt : Value) : Value :=
  match v with
  | .dict es => (dictGet es key).getD dflt
  | _ => dflt

/-- The per-item filter loop of `find_fukuoka_local_services_service`:
keeps items whose area contains the (lowered) requested area and whose
`accepts_solana_payments` flag equals the requested one, raising
AttributeError when a truthy non-string `area_in_fukuoka` reaches
`.lower()`.  The items come from the mock tables, whose `area` fields are
strings. -/
def filterServices (accepts_solana_payments area_in_fukuoka : Value) :
    List Value → Except String (List Value)
  | [] => .ok []
  | item :: rest => do
    let area_match ←
      if pyTruthy area_in_fukuoka then
        match area_in_fukuoka with
        | .str a =>
            pure (strContains (strToLower (pyStr (pyGetD item "area" (.str ""))))
              (strToLower a))
        | v => Except.error (attrLowerErr v)
      else pure true
    let payment_match :=
      !(!accepts_solana_payments.isNone &&
        !pyEq (pyGet item "accepts_solana_payments") accepts_solana_payments)
    let rest2 ← filterServices accepts_solana_payments area_in_fukuoka rest
    if area_match && payment_match then pure (item :: rest2) else pure rest2

/-- `find_fukuoka_local_services_service` from data_sources.py. -/
def find_fukuoka_local_services_service
    (category accepts_solana_payments area_in_fukuoka : Value) : ExecOutcome :=
  match category with
  | .str cs =>
    let cl := strToLower cs
    let source_data :=
      (if strContains cl "co-working" || strContains cl "coworking" then
        MOCK_FUKUOKA_COWORKING_SPACES else []) ++
      (if strContains cl "restaurant" || strContains cl "cafe" || strContains cl "food" then
        MOCK_FUKUOKA_RESTAURANTS else [])
    match filterServices accepts_solana_payments area_in_fukuoka source_data with
    | .error m => .exn m
    | .ok results =>
      .ok (.dict [("found_services",
        if results.isEmpty then
          .list [.dict [("message", .str "No matching services found with current mock data.")]]
        else .list results)])
  | v => .exn (attrLowerErr v)

/-- `get_fukuoka_events_service` from data_sources.py.  The body never uses
`timeframe` or `event_type` (the source marks filtering by them as TODO);
only the `accepts_crypto` filter is applied to the mock events. -/
def get_fukuoka_events_service (timeframe event_type accepts_crypto : Value) : Value :=
  let results :=
    if !accepts_crypto.isNone then
      MOCK_FUKUOKA_EVENTS.filter (fun event => pyEq (pyGet event "accepts_crypto") accepts_crypto)
    else MOCK_FUKUOKA_EVENTS
  .dict [("found_events",
    if results.isEmpty then
      .list [.dict [("message", .str "No matching events found with current mock data.")]]
    else .list results)]

/-- The key-phrase scan of `get_crypto_payment_info_service` (first match in
insertion order). -/
def cryptoInfoScan (tl : String) : List (String × String) → Option (String × String)
  | [] => Option.none
  | (key_phrase, info) :: rest =>
    if strContains tl key_phrase then some (key_phrase, info) else cryptoInfoScan tl rest

/-- `get_crypto_payment_info_service` from data_sources.py. -/
def get_crypto_payment_info_service (topic : Value) : ExecOutcome :=
  match topic with
  | .str ts =>
    match cryptoInfoScan (strToLower ts) MOCK_CRYPTO_PAYMENT_INFO with
    | some (key_phrase, info) =>
      .ok (.dict [("topic", .str key_phrase), ("information", .str info)])
    | Option.none =>
      .ok (.dict [("topic", topic),
        ("information", .str "Sorry, I don\x27t have specific information on that exact payment topic yet. Solana Pay with wallets like Phantom is generally fast and low-cost for SOL or USDC payments.")])
  | v => .exn (attrLowerErr v)

/-- `get_text_for_sentiment_service` from data_sources.py. -/
def get_text_for_sentiment_service (token_identifier nft_collection_name : Value) :
    ExecOutcome :=
  let target := if pyTruthy token_identifier then token_identifier else nft_collection_name
  if !pyTruthy target then
    .ok (.dict [("error", .str "No target specified for sentiment text"), ("text", .str "")])
  else if pyTruthy nft_collection_name then
    (if pyEq nft_collection_name (.str "Mad Lads") then
      .ok (.dict [("text", .str "Mad Lads are a top Solana collection, very hyped!"),
        ("topic", nft_collection_name)])
    else
      .ok (.dict [("text", .str ("General positive buzz around " ++ pyStr nft_collection_name ++ " NFTs.")),
        ("topic", nft_collection_name)]))
  else if pyTruthy token_identifier then
    match token_identifier with
    | .str t =>
      if strToUpper t = "SOL" then
        .ok (.dict [("text", .str "SOL is performing well, network upgrades are positive."),
          ("topic", token_identifier)])
      else if strToUpper t = "$JUP" then
        .ok (.dict [("text", .str "JUP token has strong community backing and utility."),
          ("topic", token_identifier)])
      else
        .ok (.dict [("text", .str ("Mixed news regarding " ++ t ++ ", some bullish some cautious.")),
          ("topic", token_identifier)])
    | v => .exn (attrUpperErr v)
  else
    .ok (.dict [("text", .str "No specific text found for sentiment analysis."),
      ("topic", .str "Unknown")])

/-! ### Tool catalog and dispatch (tool_definitions.py, main.py) -/

/-- The tool names declared in `SOLQUERY_TOOL_CONFIG` (tool_definitions.py),
in declaration order.  This is the catalog exposed to the Gemini router. -/
def SOLQUERY_TOOL_NAMES : List String :=
  ["get_sol_balance", "get_spl_token_balances", "get_nft_holdings",
   "find_fukuoka_local_services", "get_fukuoka_events", "get_crypto_payment_info",
   "get_text_for_sentiment", "analyze_text_sentiment"]

/-- The tool names the if/elif dispatch chain of `handle_query_endpoint`
handles: the eight catalog tools plus `get_wallet_portfolio_summary`
(handled in main.py although never declared to the router). -/
def handledToolNames : List String :=
  ["get_sol_balance", "get_spl_token_balances", "get_nft_holdings",
   "find_fukuoka_local_services", "get_fukuoka_events", "get_crypto_payment_info",
   "get_text_for_sentiment", "analyze_text_sentiment", "get_wallet_portfolio_summary"]

/-- `DEFAULT_TEST_WALLET` from main.py. -/
def DEFAULT_TEST_WALLET : String := "3tA8PjUvrep7UT9LNWnHZQmQ5bg646YuZnt7xLiQAXEe"

/-- One entry of the `actions` list produced by `route_query_with_llm`:
`\x7b"tool_name": fc.name, "arguments": dict(fc.args)\x7d`. -/
structure Action where
  tool_name : String
  arguments : List (String × Value)

/-- `arguments.get(k)` (default `None`). -/
def argGet (args : List (String × Value)) (k : String) : Value :=
  (dictGet args k).getD .none

/-- `arguments.get(k, dflt)`. -/
def argGetD (args : List (String × Value)) (k : String) (dflt : Value) : Value :=
  (dictGet args k).getD dflt

/-- The repeated wallet-address lookup
`arguments.get("wallet_address", user_context.get("default_wallet_address", DEFAULT_TEST_WALLET))`;
`user_context` is the empty dict in `handle_query_endpoint` (the lookup that
would populate it is commented out), so the fallback is the constant. -/
def walletArg (args : List (String × Value)) : Value :=
  argGetD args "wallet_address" (.str DEFAULT_TEST_WALLET)

/-- Result of a portfolio-service collaborator call
(`get_full_defi_portfolio` / `get_nft_portfolio_details`): a Pydantic model
— carrying its `str()` form, its `model_dump(exclude_none=True)` rendering
and the float-formatted fragment it contributes to the overall summary text
(floats are not modelled further) — or a non-model return value, or a
raised exception.  The real service always returns a model or raises; the
`other` case is what main.py is nevertheless prepared to handle. -/
inductive PortfolioPart where
  | model (objRepr : String) (dump : Value) (stats : String)
  | other (v : Value)
  | raises (msg : String)

/-- How the value of a portfolio call appears to the action loop. -/
def PortfolioPart.asOutcome : PortfolioPart → ExecOutcome
  | .model objRepr _ _ => .ok (.obj objRepr)
  | .other v => .ok v
  | .raises m => .exn m

/-- The external collaborators of the query endpoint that perform network or
LLM I/O.  Each field abstracts one Python coroutine of
data_sources.py / portfolio_service.py / sentiment_service.py. -/
structure Collaborators where
  get_sol_balance_service : Value → ExecOutcome
  get_full_defi_portfolio : Value → PortfolioPart
  get_nft_portfolio_details : Value → Value → PortfolioPart
  get_sentiment_for_target : Value → String → ExecOutcome

/-- TypeError detection for a `f(**arguments)` call: an unexpected keyword
argument, else a missing required parameter.  Returns `str(e)` of the
TypeError when binding fails; the callee is then never entered. -/
def bindKwargsErr (fname : String) (required allowed : List String)
    (args : List (String × Value)) : Option String :=
  match args.find? (fun kv => !allowed.contains kv.1) with
  | some kv => some (fname ++ "() got an unexpected keyword argument \x27" ++ kv.1 ++ "\x27")
  | Option.none =>
    match required.find? (fun r => !args.any (fun kv => kv.1 == r)) with
    | some r => some (fname ++ "() missing 1 required positional argument: \x27" ++ r ++ "\x27")
    | Option.none => Option.none

/-- The if/elif tool dispatch chain of `handle_query_endpoint` (main.py
lines 71-135), one action at a time.  Returns the value of
`action_response_data` (or the raised exception) together with the list of
backing collaborator functions actually invoked. -/
def dispatch (c : Collaborators) (action : Action) : ExecOutcome × List String :=
  let tool_name := action.tool_name
  let arguments := action.arguments
  if tool_name = "get_sol_balance" then
    (c.get_sol_balance_service (walletArg arguments), ["get_sol_balance_service"])
  else if tool_name = "get_spl_token_balances" then
    ((c.get_full_defi_portfolio (walletArg arguments)).asOutcome, ["get_full_defi_portfolio"])
  else if tool_name = "get_nft_holdings" then
    ((c.get_nft_portfolio_details (walletArg arguments)
        (argGetD arguments "limit" (.int 50))).asOutcome, ["get_nft_portfolio_details"])
  else if tool_name = "find_fukuoka_local_services" then
    match bindKwargsErr "find_fukuoka_local_services_service" ["category"]
        ["category", "accepts_solana_payments", "area_in_fukuoka"] arguments with
    | some m => (.exn m, [])
    | Option.none =>
      (find_fukuoka_local_services_service (argGet arguments "category")
        (argGet arguments "accepts_solana_payments") (argGet arguments "area_in_fukuoka"),
       ["find_fukuoka_local_services_service"])
  else if tool_name = "get_fukuoka_events" then
    match bindKwargsErr "get_fukuoka_events_service" ["timeframe"]
        ["timeframe", "event_type", "accepts_crypto"] arguments with
    | some m => (.exn m, [])
    | Option.none =>
      (.ok (get_fukuoka_events_service (argGet arguments "timeframe")
        (argGet arguments "event_type") (argGet arguments "accepts_crypto")),
       ["get_fukuoka_events_service"])
  else if tool_name = "get_crypto_payment_info" then
    match bindKwargsErr "get_crypto_payment_info_service" ["topic"] ["topic"] arguments with
    | some m => (.exn m, [])
    | Option.none =>
      (get_crypto_payment_info_service (argGet arguments "topic"),
       ["get_crypto_payment_info_service"])
  else if tool_name = "get_text_for_sentiment" then
    (get_text_for_sentiment_service (argGet arguments "token_identifier")
      (argGet arguments "nft_collection_name"), ["get_text_for_sentiment_service"])
  else if tool_name = "analyze_text_sentiment" then
    let text_to_analyze := argGet arguments "text_to_analyze"
    let topic := argGet arguments "topic"
    if !pyTruthy text_to_analyze || !pyTruthy topic then
      (.exn "Missing \x27text_to_analyze\x27 or \x27topic\x27 for analyze_text_sentiment tool.", [])
    else
      (c.get_sentiment_for_target topic
        (if pyTruthy (argGet arguments "token_identifier") then "token" else "nft_collection"),
       ["get_sentiment_for_target"])
  else if tool_name = "get_wallet_portfolio_summary" then
    let wallet_addr := walletArg arguments
    match c.get_full_defi_portfolio wallet_addr with
    | .raises m => (.exn m, ["get_full_defi_portfolio"])
    | defi_part =>
      match c.get_nft_portfolio_details wallet_addr (.int 50) with
      | .raises m => (.exn m, ["get_full_defi_portfolio", "get_nft_portfolio_details"])
      | nft_part =>
        match defi_part, nft_part with
        | .model _ ddump dstats, .model _ ndump nstats =>
          (.ok (.dict [("defi_summary", ddump), ("nft_summary", ndump),
            ("wallet_address", wallet_addr),
            ("overall_summary_text",
              .str ("Portfolio for " ++ pyStr wallet_addr ++ ": " ++ dstats ++ nstats))]),
           ["get_full_defi_portfolio", "get_nft_portfolio_details"])
        | _, _ =>
          let errors_collated :=
            (match defi_part with
             | .other v =>
               if v.isDict && pyTruthy (pyGet v "error") then
                 ["DeFi Error: " ++ pyStr (pyGet v "error")] else []
             | _ => []) ++
            (match nft_part with
             | .other v =>
               if v.isDict && pyTruthy (pyGet v "error") then
                 ["NFT Error: " ++ pyStr (pyGet v "error")] else []
             | _ => [])
          (.ok (.dict [("error", .str "Failed to fetch complete portfolio."),
            ("details",
              if errors_collated.isEmpty then .str "Unknown portfolio error."
              else .list (errors_collated.map Value.str))]),
           ["get_full_defi_portfolio", "get_nft_portfolio_details"])
  else
    (.ok (.dict [("error",
      .str ("Tool \x27" ++ tool_name ++ "\x27 not implemented in main.py handler."))]), [])

/-! ### The aggregation loop and response shaping (main.py lines 57-182) -/

/-- `isinstance(v, dict) and v.get("error")` — the post-call error test of
the action loop. -/
def isErrorDict (v : Value) : Bool :=
  v.isDict && pyTruthy (pyGet v "error")

/-- The loop state of `handle_query_endpoint`: `aggregated_results`,
`data_sources_used_list` and `any_execution_error_occurred`. -/
structure AggState where
  results : List (String × Value)
  dsu : List String
  anyError : Bool

/-- One iteration of the action loop (main.py lines 61-156): run the
dispatch, then file the result under `tool_name`, `tool_name ++ "_error"`
(plus optional details), or `tool_name ++ "_execution_error"`. -/
def processAction (c : Collaborators) (st : AggState) (action : Action) : AggState :=
  let st := { st with dsu := st.dsu ++ ["Tool: " ++ action.tool_name] }
  match (dispatch c action).1 with
  | .ok v =>
    if isErrorDict v then
      let r1 := dictInsert st.results (action.tool_name ++ "_error") (pyGet v "error")
      let r2 :=
        if pyTruthy (pyGet v "details") then
          dictInsert r1 (action.tool_name ++ "_error_details") (pyGet v "details")
        else r1
      { st with results := r2, anyError := true }
    else if !v.isNone then
      { st with results := dictInsert st.results action.tool_name v }
    else
      { st with
        results := dictInsert st.results action.tool_name
          (.str "Tool executed but returned no data or an explicit None."),
        anyError := true }
  | .exn msg =>
    { st with
      results := dictInsert st.results (action.tool_name ++ "_execution_error") (.str msg),
      anyError := true }

/-- The whole action loop, started from empty state. -/
def aggregateActions (c : Collaborators) (actions : List Action) : AggState :=
  actions.foldl (processAction c) ⟨[], [], false⟩

/-- `ErrorDetail` from common_schemas.py. -/
structure ErrorDetail where
  type : String
  message : String
  details : Value := .none

/-- The routing-decision dict returned by `route_query_with_llm`, as
consumed by `handle_query_endpoint` through `.get(...)` truthiness tests.
Every actually produced decision populates exactly one field, but the
handler is modelled against the general shape. -/
structure RoutingDecision where
  error : Option Value := Option.none
  clarification_needed : Option Value := Option.none
  direct_answer : Option Value := Option.none
  actions : Option (List Action) := Option.none

/-- `QueryResponse` from common_schemas.py (the wire contract of the
endpoint); `llm_trace` echoes the routing decision. -/
structure QueryResponse where
  success : Bool
  answer : Value
  data_source_used : Option String := Option.none
  llm_trace : RoutingDecision
  error : Option ErrorDetail := Option.none

/-- Truthiness of `routing_decision.get(key)`. -/
def pyTruthyO : Option Value → Bool
  | some v => pyTruthy v
  | Option.none => false

/-- `", ".join(list(set(xs)))`.  CPython set iteration order is
unspecified; the model fixes first-occurrence order.  No claim reads this
field. -/
def joinUnique (xs : List String) : String :=
  String.intercalate ", " (xs.foldl (fun acc x => if acc.contains x then acc else acc ++ [x]) [])

/-- `next(iter(aggregated_results.values()))`: the first inserted value. -/
def firstValue : List (String × Value) → Value
  | [] => .none
  | (_, v) :: _ => v

/-- The tail of `handle_query_endpoint` once a non-empty `actions` list was
obtained (main.py lines 57-182): run the loop, then shape the final answer
(bare value for a single error-free action, else the aggregation mapping)
and the overall success flag. -/
def runActions (c : Collaborators) (routing_decision : RoutingDecision)
    (actions : List Action) : QueryResponse :=
  let st := aggregateActions c actions
  if st.results.isEmpty then
    { success := false,
      answer := .str "LLM suggested actions, but execution yielded no results or errors.",
      llm_trace := routing_decision,
      error := some { type := "ActionExecutionError", message := "No data from actions" } }
  else
    let final_answer :=
      if actions.length = 1 && !st.anyError then firstValue st.results
      else .dict st.results
    let overall_success :=
      !st.anyError && !(st.results.any (fun kv => strContains (strToLower kv.1) "error"))
    { success := overall_success, answer := final_answer,
      data_source_used := some (joinUnique st.dsu),
      llm_trace := routing_decision,
      error :=
        if overall_success then Option.none
        else some { type := "AggregatedError",
                    message := "One or more actions had issues. See answer for details." } }

/-- `handle_query_endpoint` from main.py (the `/query` endpoint), as a
function of the routing decision returned by the router and of the external
collaborators. -/
def handle_query_endpoint (c : Collaborators) (routing_decision : RoutingDecision) :
    QueryResponse :=
  if pyTruthyO routing_decision.error then
    { success := false, answer := .none, llm_trace := routing_decision,
      error := some { type := "LLMRoutingError",
                      message := pyStr ((routing_decision.error).getD .none) } }
  else if pyTruthyO routing_decision.clarification_needed then
    { success := true, answer := (routing_decision.clarification_needed).getD .none,
      data_source_used := some "LLM (Clarification)", llm_trace := routing_decision }
  else if pyTruthyO routing_decision.direct_answer then
    { success := true, answer := (routing_decision.direct_answer).getD .none,
      data_source_used := some "LLM (Direct Answer)", llm_trace := routing_decision }
  else
    if ((routing_decision.actions).getD []).isEmpty then
      { success := false, answer := .str "LLM did not suggest any actionable steps.",
        llm_trace := routing_decision,
        error := some { type := "NoActionError", message := "No action determined by LLM" } }
    else
      runActions c routing_decision ((routing_decision.actions).getD [])

/-! ### The LLM router (llm_service.py) -/

/-- One function call in the Gemini response (`part.function_call`). -/
structure GeminiFunctionCall where
  name : String
  args : List (String × Value)

/-- One part of `response.candidates[0].content.parts`. -/
structure GeminiPart where
  function_call : Option GeminiFunctionCall

/-- The observable surface of the Gemini response: the content parts (empty
when there is no candidate) and `response.text` (empty when the model
produced no text). -/
structure GeminiResponse where
  parts : List GeminiPart
  text : String

/-- The `actions_to_take` extraction of `route_query_with_llm` (llm_service.py
lines 71-80): every function call in the parts becomes
`\x7b"tool_name": fc.name, "arguments": dict(fc.args)\x7d`; there is no
validation against the tool catalog. -/
def extractCalls (resp : GeminiResponse) : List Action :=
  resp.parts.filterMap
    (fun p => p.function_call.map (fun fc => { tool_name := fc.name, arguments := fc.args }))

/-- `route_query_with_llm` from llm_service.py, as a function of whether
Gemini is configured and of the result of the `generate_content_async` call
(`Except.error` models the exception path of the surrounding try block). -/
def route_query_with_llm (configured : Bool) (api : Except String GeminiResponse) :
    RoutingDecision :=
  if !configured then
    { error := some (.str "Gemini API not configured. Cannot route query.") }
  else
    match api with
    | .error e => { error := some (.str ("Gemini API routing error: " ++ e)) }
    | .ok response =>
      let actions_to_take := extractCalls response
      if !actions_to_take.isEmpty then { actions := some actions_to_take }
      else if pyTruthy (.str response.text) then
        if strContains (strToLower response.text) "clarification_needed" ||
            strContains response.text "?" then
          { clarification_needed := some (.str response.text) }
        else { direct_answer := some (.str response.text) }
      else
        { error := some (.str "LLM did not suggest an action or provide a text response.") }

/-! ### Derived notions and concrete fixtures used by the theorems -/

/-- Boolean form of a call producing a non-error, non-None value. -/
def properB : ExecOutcome → Bool
  | .ok v => !isErrorDict v && !v.isNone
  | .exn _ => false

/-- The call dispatched for `a` returned a value that is neither an error
dict nor `None` (the condition under which the loop files a plain success
entry). -/
def producesProperValue (c : Collaborators) (a : Action) : Prop :=
  ∃ v, (dispatch c a).1 = .ok v ∧ isErrorDict v = false ∧ v.isNone = false

/-- The error carried by a failing outcome: the `error` entry of an error
dict, or `str(e)` of a raised exception; `none` for a non-failing outcome. -/
def failsWithError : ExecOutcome → Option Value
  | .ok w => if isErrorDict w then some (pyGet w "error") else Option.none
  | .exn m => some (.str m)

/-- The key under which the loop files a failing outcome of action `b`. -/
def failKey (b : Action) : ExecOutcome → String
  | .ok _ => b.tool_name ++ "_error"
  | .exn _ => b.tool_name ++ "_execution_error"

/-- A concrete instantiation of the external collaborators, used by the
concrete instances below: every I/O-backed service succeeds. -/
def cDemo : Collaborators :=
  { get_sol_balance_service := fun _ => .ok (.dict [("balance_sol", .int 2)]),
    get_full_defi_portfolio := fun _ =>
      .model "DeFiPortfolio()" (.dict []) "2.0000 SOL. 0 SPL token types. ",
    get_nft_portfolio_details := fun _ _ => .model "NFTPortfolio()" (.dict []) "0 NFTs.",
    get_sentiment_for_target := fun _ _ => .ok (.obj "SentimentAnalysisResult()") }

/-- Like `cDemo` but the balance fetch returns the error dict the real
service produces without a configured API key. -/
def cErr : Collaborators :=
  { cDemo with
    get_sol_balance_service := fun _ =>
      .ok (.dict [("error", .str "Helius API Key not configured")]) }

/-- A concrete events call. -/
def actEvents : Action :=
  { tool_name := "get_fukuoka_events", arguments := [("timeframe", .str "today")] }

/-- A concrete balance call (no arguments: the default wallet is used). -/
def actBalance : Action := { tool_name := "get_sol_balance", arguments := [] }

/-- A concrete payment-info call. -/
def actPay1 : Action :=
  { tool_name := "get_crypto_payment_info", arguments := [("topic", .str "solana pay")] }

/-- A second payment-info call with the same tool name. -/
def actPay2 : Action :=
  { tool_name := "get_crypto_payment_info",
    arguments := [("topic", .str "how to buy sol for a tourist")] }

/-- A routing decision with one successful call. -/
def rdEvents : RoutingDecision := { actions := some [actEvents] }

/-- A routing decision whose batch has one succeeding and one failing call. -/
def rdPartial : RoutingDecision := { actions := some [actEvents, actBalance] }

/-- A routing decision with a present but empty tool-call list. -/
def rdEmpty : RoutingDecision := { actions := some ([] : List Action) }

/-- A routing decision with two calls sharing one tool name. -/
def rdDup : RoutingDecision := { actions := some [actPay1, actPay2] }

/-- A routing decision with a single analyze_text_sentiment call lacking its
required arguments. -/
def rdSentimentNoArgs : RoutingDecision :=
  { actions := some [{ tool_name := "analyze_text_sentiment", arguments := [] }] }

/-- A Gemini response naming a tool that is not in the catalog. -/
def respBogus : GeminiResponse :=
  { parts := [{ function_call := some { name := "bogus_tool", args := [] } }], text := "" }

/-- A Gemini response with no function call and a clarification question. -/
def respWhichWallet : GeminiResponse := { parts := [], text := "Which wallet?" }

/-! ### Helper lemmas: association lists -/

theorem dictInsert_ne_nil (d : List (String × Value)) (k : String) (v : Value) :
    dictInsert d k v ≠ [] := by
  unfold dictInsert
  split
  · intro h
    rcases d with _ | ⟨kv, rest⟩
    · simp at *
    · simp at h
  · simp

theorem dictGet_map_replace_self (d : List (String × Value)) (k : String) (v : Value)
    (h : d.any (fun kv => kv.1 == k) = true) :
    dictGet (d.map (fun kv => if kv.1 = k then (k, v) else kv)) k = some v := by
  induction d with
  | nil => simp at h
  | cons kv rest ih =>
    rw [List.map_cons]
    by_cases hk : kv.1 = k
    · rw [if_pos hk]
      simp [dictGet]
    · rw [if_neg hk]
      have h2 : rest.any (fun kv => kv.1 == k) = true := by
        simp only [List.any_cons, Bool.or_eq_true, beq_iff_eq] at h
        rcases h with h | h
        · exact absurd h hk
        · exact h
      simp only [dictGet]
      rw [if_neg hk]
      exact ih h2

theorem dictGet_append_single_self (d : List (String × Value)) (k : String) (v : Value)
    (h : d.any (fun kv => kv.1 == k) = false) :
    dictGet (d ++ [(k, v)]) k = some v := by
  induction d with
  | nil => simp [dictGet]
  | cons kv rest ih =>
    simp only [List.any_cons, Bool.or_eq_false_iff, beq_eq_false_iff_ne] at h
    simp only [List.cons_append, dictGet]
    rw [if_neg h.1]
    exact ih (by simpa using h.2)

theorem dictGet_insert_self (d : List (String × Value)) (k : String) (v : Value) :
    dictGet (dictInsert d k v) k = some v := by
  unfold dictInsert
  split
  case isTrue h => exact dictGet_map_replace_self d k v h
  case isFalse h =>
    exact dictGet_append_single_self d k v (by simp only [Bool.not_eq_true] at h; exact h)

theorem dictGet_map_replace_ne (d : List (String × Value)) (k k2 : String) (v : Value)
    (h : k ≠ k2) :
    dictGet (d.map (fun kv => if kv.1 = k then (k, v) else kv)) k2 = dictGet d k2 := by
  induction d with
  | nil => rfl
  | cons kv rest ih =>
    rw [List.map_cons]
    by_cases hk : kv.1 = k
    · rw [if_pos hk]
      simp only [dictGet]
      rw [if_neg h, if_neg (by rw [hk]; exact h)]
      exact ih
    · rw [if_neg hk]
      simp only [dictGet]
      by_cases hk2 : kv.1 = k2
      · rw [if_pos hk2, if_pos hk2]
      · rw [if_neg hk2, if_neg hk2]
        exact ih

theorem dictGet_append_single_ne (d : List (String × Value)) (k k2 : String) (v : Value)
    (h : k ≠ k2) : dictGet (d ++ [(k, v)]) k2 = dictGet d k2 := by
  induction d with
  | nil => simp [dictGet, h]
  | cons kv rest ih =>
    simp only [List.cons_append, dictGet]
    by_cases hk2 : kv.1 = k2
    · rw [if_pos hk2, if_pos hk2]
    · rw [if_neg hk2, if_neg hk2]
      exact ih

theorem dictGet_insert_ne (d : List (String × Value)) (k k2 : String) (v : Value)
    (h : k ≠ k2) : dictGet (dictInsert d k v) k2 = dictGet d k2 := by
  unfold dictInsert
  split
  · exact dictGet_map_replace_ne d k k2 v h
  · exact dictGet_append_single_ne d k k2 v h

theorem mem_keys_dictInsert (d : List (String × Value)) (k key : String) (v : Value)
    (h : key ∈ (dictInsert d k v).map Prod.fst) :
    key ∈ d.map Prod.fst ∨ key = k := by
  unfold dictInsert at h
  split at h
  · rw [List.map_map] at h
    rcases List.mem_map.mp h with ⟨kv, hmem, heq⟩
    by_cases hk : kv.1 = k
    · right
      rw [Function.comp_apply, if_pos hk] at heq
      exact heq.symm
    · left
      rw [Function.comp_apply, if_neg hk] at heq
      exact heq ▸ List.mem_map_of_mem Prod.fst hmem
  · rw [List.map_append, List.mem_append] at h
    rcases h with h | h
    · exact Or.inl h
    · exact Or.inr (by simpa using h)

/-! ### Helper lemmas: strings -/

theorem listHasSub_append_right (pat l1 l2 : List Char)
    (h : listHasSub pat l2 = true) : listHasSub pat (l1 ++ l2) = true := by
  induction l1 with
  | nil => simpa using h
  | cons c rest ih => simp [listHasSub, ih]

theorem strContains_lower_append (x sfx : String)
    (h : listHasSub "error".toList (sfx.toList.map lowerChar) = true) :
    strContains (strToLower (x ++ sfx)) "error" = true := by
  unfold strContains strToLower
  have hdata : (x ++ sfx).toList = x.toList ++ sfx.toList := by
    simp [String.toList, String.data_append]
  rw [show String.toList ⟨(x ++ sfx).toList.map lowerChar⟩ = (x ++ sfx).toList.map lowerChar from rfl,
    hdata, List.map_append]
  exact listHasSub_append_right _ _ _ h

theorem data_isEmpty_false_of_ne (s : String) (h : s ≠ "") : s.data.isEmpty = false := by
  obtain ⟨data⟩ := s
  cases data with
  | nil => exact absurd rfl h
  | cons c rest => rfl

theorem pyTruthy_str_append_left (p s : String) (h : p.data ≠ []) :
    pyTruthy (.str (p ++ s)) = true := by
  simp only [pyTruthy, String.data_append]
  cases hd : p.data with
  | nil => exact absurd hd h
  | cons c rest => simp

/-! ### Helper lemmas: one loop iteration -/

theorem processAction_proper (c : Collaborators) (st : AggState) (a : Action) (v : Value)
    (h : (dispatch c a).1 = .ok v) (h1 : isErrorDict v = false) (h2 : v.isNone = false) :
    processAction c st a =
      { results := dictInsert st.results a.tool_name v,
        dsu := st.dsu ++ ["Tool: " ++ a.tool_name],
        anyError := st.anyError } := by
  unfold processAction
  rw [h]
  simp [h1, h2]

theorem processAction_errorDict (c : Collaborators) (st : AggState) (a : Action) (w : Value)
    (h : (dispatch c a).1 = .ok w) (hw : isErrorDict w = true) :
    processAction c st a =
      { results :=
          if pyTruthy (pyGet w "details") then
            dictInsert (dictInsert st.results (a.tool_name ++ "_error") (pyGet w "error"))
              (a.tool_name ++ "_error_details") (pyGet w "details")
          else dictInsert st.results (a.tool_name ++ "_error") (pyGet w "error"),
        dsu := st.dsu ++ ["Tool: " ++ a.tool_name],
        anyError := true } := by
  unfold processAction
  rw [h]
  simp [hw]

theorem processAction_noneVal (c : Collaborators) (st : AggState) (a : Action) (v : Value)
    (h : (dispatch c a).1 = .ok v) (h1 : isErrorDict v = false) (h2 : v.isNone = true) :
    processAction c st a =
      { results := dictInsert st.results a.tool_name
          (.str "Tool executed but returned no data or an explicit None."),
        dsu := st.dsu ++ ["Tool: " ++ a.tool_name],
        anyError := true } := by
  unfold processAction
  rw [h]
  simp [h1, h2]

theorem processAction_exn (c : Collaborators) (st : AggState) (a : Action) (m : String)
    (h : (dispatch c a).1 = .exn m) :
    processAction c st a =
      { results := dictInsert st.results (a.tool_name ++ "_execution_error") (.str m),
        dsu := st.dsu ++ ["Tool: " ++ a.tool_name],
        anyError := true } := by
  unfold processAction
  rw [h]

theorem processAction_anyError (c : Collaborators) (st : AggState) (a : Action) :
    (processAction c st a).anyError = (st.anyError || !properB (dispatch c a).1) := by
  unfold processAction properB
  cases (dispatch c a).1 with
  | ok v =>
    by_cases h1 : isErrorDict v
    · simp [h1]
    · by_cases h2 : v.isNone
      · simp [h1, h2]
      · simp [h1, h2]
  | exn m => simp

theorem processAction_results_ne_nil (c : Collaborators) (st : AggState) (a : Action) :
    (processAction c st a).results ≠ [] := by
  rcases hd : (dispatch c a).1 with v | m
  · by_cases h1 : isErrorDict v = true
    · rw [processAction_errorDict c st a v hd h1]
      show (if pyTruthy (pyGet v "details") = true then
          dictInsert (dictInsert st.results (a.tool_name ++ "_error") (pyGet v "error"))
            (a.tool_name ++ "_error_details") (pyGet v "details")
        else dictInsert st.results (a.tool_name ++ "_error") (pyGet v "error")) ≠ []
      split
      · exact dictInsert_ne_nil _ _ _
      · exact dictInsert_ne_nil _ _ _
    · have h1f : isErrorDict v = false := by simpa using h1
      by_cases h2 : v.isNone = true
      · rw [processAction_noneVal c st a v hd h1f h2]
        exact dictInsert_ne_nil _ _ _
      · have h2f : v.isNone = false := by simpa using h2
        rw [processAction_proper c st a v hd h1f h2f]
        exact dictInsert_ne_nil _ _ _
  · rw [processAction_exn c st a m hd]
    exact dictInsert_ne_nil _ _ _

theorem processAction_keys (c : Collaborators) (st : AggState) (a : Action) (key : String)
    (h : key ∈ (processAction c st a).results.map Prod.fst) :
    key ∈ st.results.map Prod.fst ∨ key = a.tool_name ∨ key = a.tool_name ++ "_error"
      ∨ key = a.tool_name ++ "_error_details" ∨ key = a.tool_name ++ "_execution_error" := by
  rcases hd : (dispatch c a).1 with v | m
  · by_cases h1 : isErrorDict v = true
    · rw [processAction_errorDict c st a v hd h1] at h
      simp only at h
      split at h
      · rcases mem_keys_dictInsert _ _ _ _ h with h2 | h2
        · rcases mem_keys_dictInsert _ _ _ _ h2 with h3 | h3
          · exact Or.inl h3
          · exact Or.inr (Or.inr (Or.inl h3))
        · exact Or.inr (Or.inr (Or.inr (Or.inl h2)))
      · rcases mem_keys_dictInsert _ _ _ _ h with h2 | h2
        · exact Or.inl h2
        · exact Or.inr (Or.inr (Or.inl h2))
    · have h1f : isErrorDict v = false := by simpa using h1
      by_cases h2 : v.isNone = true
      · rw [processAction_noneVal c st a v hd h1f h2] at h
        rcases mem_keys_dictInsert _ _ _ _ h with h3 | h3
        · exact Or.inl h3
        · exact Or.inr (Or.inl h3)
      · have h2f : v.isNone = false := by simpa using h2
        rw [processAction_proper c st a v hd h1f h2f] at h
        rcases mem_keys_dictInsert _ _ _ _ h with h3 | h3
        · exact Or.inl h3
        · exact Or.inr (Or.inl h3)
  · rw [processAction_exn c st a m hd] at h
    rcases mem_keys_dictInsert _ _ _ _ h with h3 | h3
    · exact Or.inl h3
    · exact Or.inr (Or.inr (Or.inr (Or.inr h3)))

/-! ### Helper lemmas: the whole loop -/

theorem foldl_anyError (c : Collaborators) (acts : List Action) (st : AggState) :
    (acts.foldl (processAction c) st).anyError
      = (st.anyError || acts.any (fun a => !properB (dispatch c a).1)) := by
  induction acts generalizing st with
  | nil => simp
  | cons a rest ih =>
    rw [List.foldl_cons, ih, processAction_anyError]
    simp [Bool.or_assoc]

theorem foldl_results_ne_nil_of_ne_nil (c : Collaborators) (acts : List Action)
    (st : AggState) (h : st.results ≠ []) :
    (acts.foldl (processAction c) st).results ≠ [] := by
  induction acts generalizing st with
  | nil => exact h
  | cons a rest ih =>
    rw [List.foldl_cons]
    exact ih _ (processAction_results_ne_nil c st a)

theorem foldl_results_ne_nil (c : Collaborators) (acts : List Action) (st : AggState)
    (h : acts ≠ []) : (acts.foldl (processAction c) st).results ≠ [] := by
  cases acts with
  | nil => exact absurd rfl h
  | cons a rest =>
    rw [List.foldl_cons]
    exact foldl_results_ne_nil_of_ne_nil c rest _ (processAction_results_ne_nil c st a)

theorem foldl_keys (c : Collaborators) (acts : List Action) (st : AggState) (key : String)
    (h : key ∈ (acts.foldl (processAction c) st).results.map Prod.fst) :
    key ∈ st.results.map Prod.fst ∨
      ∃ a, a ∈ acts ∧ (key = a.tool_name ∨ key = a.tool_name ++ "_error"
        ∨ key = a.tool_name ++ "_error_details" ∨ key = a.tool_name ++ "_execution_error") := by
  induction acts generalizing st with
  | nil => exact Or.inl (by simpa using h)
  | cons a rest ih =>
    rw [List.foldl_cons] at h
    rcases ih _ h with h2 | ⟨b, hb, h3⟩
    · rcases processAction_keys c st a key h2 with h3 | h3
      · exact Or.inl h3
      · exact Or.inr ⟨a, List.mem_cons_self a rest, h3⟩
    · exact Or.inr ⟨b, List.mem_cons_of_mem a hb, h3⟩

/-! ### Helper lemmas: dispatch and tool names -/

theorem producesProperValue_iff (c : Collaborators) (a : Action) :
    producesProperValue c a ↔ properB (dispatch c a).1 = true := by
  constructor
  · rintro ⟨v, hv, h1, h2⟩
    rw [hv]
    simp [properB, h1, h2]
  · intro hp
    rcases h : (dispatch c a).1 with v | m
    · rw [h] at hp
      simp only [properB, Bool.and_eq_true, Bool.not_eq_true'] at hp
      exact ⟨v, h, hp.1, hp.2⟩
    · rw [h] at hp
      simp [properB] at hp

theorem dispatch_unknown (c : Collaborators) (a : Action)
    (h : a.tool_name ∉ handledToolNames) :
    dispatch c a =
      (.ok (.dict [("error",
        .str ("Tool \x27" ++ a.tool_name ++ "\x27 not implemented in main.py handler."))]), []) := by
  simp only [handledToolNames, List.mem_cons, List.not_mem_nil, or_false, not_or] at h
  obtain ⟨h1, h2, h3, h4, h5, h6, h7, h8, h9⟩ := h
  unfold dispatch
  rw [if_neg h1, if_neg h2, if_neg h3, if_neg h4, if_neg h5, if_neg h6, if_neg h7,
    if_neg h8, if_neg h9]

theorem isErrorDict_unknown_msg (n : String) :
    isErrorDict (.dict [("error",
      .str ("Tool \x27" ++ n ++ "\x27 not implemented in main.py handler."))]) = true := by
  simp only [isErrorDict, Value.isDict, pyGet, dictGet, if_pos, Bool.true_and]
  rw [String.append_assoc]
  exact pyTruthy_str_append_left "Tool \x27" _ (by decide)

theorem dispatch_proper_mem_handled (c : Collaborators) (a : Action) (v : Value)
    (h : (dispatch c a).1 = .ok v) (h1 : isErrorDict v = false) :
    a.tool_name ∈ handledToolNames := by
  by_contra hmem
  rw [dispatch_unknown c a hmem] at h
  have h2 : ExecOutcome.ok (Value.dict [("error",
      .str ("Tool \x27" ++ a.tool_name ++ "\x27 not implemented in main.py handler."))])
      = ExecOutcome.ok v := h
  injection h2 with hv
  rw [← hv] at h1
  rw [isErrorDict_unknown_msg a.tool_name] at h1
  exact Bool.noConfusion h1

theorem handled_names_no_error_substr :
    ∀ n ∈ handledToolNames, strContains (strToLower n) "error" = false := by decide

theorem contains_error_of_error_suffix (x : String) :
    strContains (strToLower (x ++ "_error")) "error" = true :=
  strContains_lower_append x "_error" (by decide)

theorem contains_error_of_details_suffix (x : String) :
    strContains (strToLower (x ++ "_error_details")) "error" = true :=
  strContains_lower_append x "_error_details" (by decide)

theorem contains_error_of_exec_suffix (x : String) :
    strContains (strToLower (x ++ "_execution_error")) "error" = true :=
  strContains_lower_append x "_execution_error" (by decide)

theorem ne_of_contains_mismatch (a b : String)
    (ha : strContains (strToLower a) "error" = false)
    (hb : strContains (strToLower b) "error" = true) : a ≠ b := by
  intro he
  rw [he, hb] at ha
  exact Bool.noConfusion ha

/-! ### Helper lemmas: unfolding the endpoint -/

theorem isEmpty_false_of_ne_nil {α : Type} (l : List α) (h : l ≠ []) :
    l.isEmpty = false := by
  cases l with
  | nil => exact absurd rfl h
  | cons a rest => rfl

theorem handle_eq_runActions (c : Collaborators) (rd : RoutingDecision) (acts : List Action)
    (he : pyTruthyO rd.error = false) (hc : pyTruthyO rd.clarification_needed = false)
    (hd : pyTruthyO rd.direct_answer = false) (ha : rd.actions = some acts)
    (hne : acts ≠ []) :
    handle_query_endpoint c rd = runActions c rd acts := by
  unfold handle_query_endpoint
  rw [he, hc, hd, ha]
  simp [isEmpty_false_of_ne_nil acts hne]

theorem runActions_success (c : Collaborators) (rd : RoutingDecision) (acts : List Action)
    (h : (aggregateActions c acts).results ≠ []) :
    (runActions c rd acts).success =
      (!(aggregateActions c acts).anyError &&
        !((aggregateActions c acts).results.any
          (fun kv => strContains (strToLower kv.1) "error"))) := by
  unfold runActions
  simp [isEmpty_false_of_ne_nil _ h]

theorem runActions_answer (c : Collaborators) (rd : RoutingDecision) (acts : List Action)
    (h : (aggregateActions c acts).results ≠ []) :
    (runActions c rd acts).answer =
      (if acts.length = 1 && !(aggregateActions c acts).anyError
        then firstValue (aggregateActions c acts).results
        else .dict (aggregateActions c acts).results) := by
  unfold runActions
  simp [isEmpty_false_of_ne_nil _ h]

theorem runActions_error_cases (c : Collaborators) (rd : RoutingDecision)
    (acts : List Action) (h : acts ≠ []) :
    (runActions c rd acts).error = Option.none ∨
      (runActions c rd acts).error =
        some { type := "AggregatedError",
               message := "One or more actions had issues. See answer for details." } := by
  have hres : (aggregateActions c acts).results ≠ [] :=
    foldl_results_ne_nil c acts _ h
  unfold runActions
  by_cases hs : (!(aggregateActions c acts).anyError &&
      !((aggregateActions c acts).results.any
        (fun kv => strContains (strToLower kv.1) "error"))) = true
  · left
    simp [isEmpty_false_of_ne_nil _ hres, hs]
  · right
    simp only [Bool.not_eq_true] at hs
    simp [isEmpty_false_of_ne_nil _ hres, hs]

theorem aggregateActions_def (c : Collaborators) (acts : List Action) :
    aggregateActions c acts = acts.foldl (processAction c) ⟨[], [], false⟩ := rfl

theorem foldl_keys_proper (c : Collaborators) (acts : List Action) (st : AggState)
    (key : String) (hall : ∀ a ∈ acts, producesProperValue c a)
    (h : key ∈ (acts.foldl (processAction c) st).results.map Prod.fst) :
    key ∈ st.results.map Prod.fst ∨ ∃ a, a ∈ acts ∧ key = a.tool_name := by
  induction acts generalizing st with
  | nil => exact Or.inl (by simpa using h)
  | cons a rest ih =>
    rw [List.foldl_cons] at h
    have hrest : ∀ b ∈ rest, producesProperValue c b :=
      fun b hb => hall b (List.mem_cons_of_mem a hb)
    rcases ih _ hrest h with h2 | ⟨b, hb, h3⟩
    · rcases hall a (List.mem_cons_self a rest) with ⟨v, hv, h1, h2v⟩
      rw [processAction_proper c st a v hv h1 h2v] at h2
      rcases mem_keys_dictInsert _ _ _ _ h2 with h3 | h3
      · exact Or.inl h3
      · exact Or.inr ⟨a, List.mem_cons_self a rest, h3⟩
    · exact Or.inr ⟨b, List.mem_cons_of_mem a hb, h3⟩

/-! ### The claims -/

/-- C1: for every processed query whose routing decision contains a
non-empty list of tool calls, the aggregated response success flag is true
iff every issued tool call produced a non-error, non-null value; a single
failing call in a multi-call batch makes success false for the whole
response. -/
theorem success_iff_every_call_proper (c : Collaborators) (rd : RoutingDecision)
    (acts : List Action)
    (he : pyTruthyO rd.error = false) (hc : pyTruthyO rd.clarification_needed = false)
    (hd : pyTruthyO rd.direct_answer = false) (ha : rd.actions = some acts)
    (hne : acts ≠ []) :
    (handle_query_endpoint c rd).success = true ↔
      ∀ a ∈ acts, producesProperValue c a := by
  rw [handle_eq_runActions c rd acts he hc hd ha hne]
  have hres : (aggregateActions c acts).results ≠ [] := foldl_results_ne_nil c acts _ hne
  rw [runActions_success c rd acts hres]
  constructor
  · intro h a hmem
    rw [Bool.and_eq_true] at h
    have hany : (aggregateActions c acts).anyError = false := by
      have h2 := h.1
      simpa using h2
    rw [aggregateActions_def, foldl_anyError] at hany
    simp only [Bool.false_or, List.any_eq_false] at hany
    rw [producesProperValue_iff]
    have h3 := hany a hmem
    simpa using h3
  · intro hall
    rw [Bool.and_eq_true]
    constructor
    · rw [Bool.not_eq_true']
      rw [aggregateActions_def, foldl_anyError]
      simp only [Bool.false_or, List.any_eq_false]
      intro a hmem
      have h2 := (producesProperValue_iff c a).mp (hall a hmem)
      simp [h2]
    · rw [Bool.not_eq_true', List.any_eq_false]
      intro kv hkv
      have hkey : kv.1 ∈ (aggregateActions c acts).results.map Prod.fst :=
        List.mem_map_of_mem Prod.fst hkv
      rw [aggregateActions_def] at hkey
      rcases foldl_keys_proper c acts ⟨[], [], false⟩ kv.1 hall hkey with h2 | ⟨a, hmem, hkeyeq⟩
      · simp at h2
      · rcases hall a hmem with ⟨v, hv, h1, _⟩
        have hmemh := dispatch_proper_mem_handled c a v hv h1
        have hfree := handled_names_no_error_substr a.tool_name hmemh
        rw [hkeyeq, hfree]
        simp

/-- Witness for C1: a concrete query with one events call succeeds, and
the iff instantiates accordingly. -/
theorem success_iff_every_call_proper_witness :
    (handle_query_endpoint cDemo rdEvents).success = true :=
  (success_iff_every_call_proper cDemo rdEvents [actEvents] rfl rfl rfl rfl
    (by simp)).mpr
    (by
      intro a ha
      simp only [List.mem_singleton] at ha
      subst ha
      exact ⟨_, rfl, rfl, rfl⟩)

theorem append_suffix_ne (x s t : String) (h : s.length ≠ t.length) :
    x ++ s ≠ x ++ t := by
  intro heq
  have h2 := congrArg String.length heq
  rw [String.length_append, String.length_append] at h2
  omega

/-- C2: in a batch of two calls where A succeeds and B fails, the answer
mapping keeps both the successful value of A (under its tool name) and the
error of B (under its suffixed key), and the response is unsuccessful. -/
theorem partial_failure_keeps_success_value (c : Collaborators) (rd : RoutingDecision)
    (a b : Action) (v e : Value)
    (he : pyTruthyO rd.error = false) (hc : pyTruthyO rd.clarification_needed = false)
    (hd : pyTruthyO rd.direct_answer = false) (ha : rd.actions = some [a, b])
    (hav : (dispatch c a).1 = .ok v) (hane : isErrorDict v = false) (hann : v.isNone = false)
    (hbe : failsWithError (dispatch c b).1 = some e) :
    (handle_query_endpoint c rd).success = false ∧
      (handle_query_endpoint c rd).answer = .dict (aggregateActions c [a, b]).results ∧
      dictGet (aggregateActions c [a, b]).results a.tool_name = some v ∧
      dictGet (aggregateActions c [a, b]).results (failKey b (dispatch c b).1) = some e := by
  have hne : ([a, b] : List Action) ≠ [] := by simp
  have hagg : aggregateActions c [a, b] =
      processAction c (processAction c ⟨[], [], false⟩ a) b := rfl
  have hstep1 : processAction c ⟨[], [], false⟩ a =
      { results := [(a.tool_name, v)], dsu := ["Tool: " ++ a.tool_name],
        anyError := false } := by
    rw [processAction_proper c _ a v hav hane hann]
    rfl
  have hbnp : properB (dispatch c b).1 = false := by
    rcases hob : (dispatch c b).1 with w | m
    · rw [hob] at hbe
      simp only [failsWithError] at hbe
      by_cases hw : isErrorDict w = true
      · simp [properB, hw]
      · rw [if_neg hw] at hbe
        exact absurd hbe (by simp)
    · simp [properB]
  have hanyErr : (aggregateActions c [a, b]).anyError = true := by
    rw [aggregateActions_def, foldl_anyError]
    simp [hbnp]
  have hres : (aggregateActions c [a, b]).results ≠ [] := foldl_results_ne_nil c _ _ hne
  have hhandled := dispatch_proper_mem_handled c a v hav hane
  have hnameok := handled_names_no_error_substr a.tool_name hhandled
  rw [handle_eq_runActions c rd [a, b] he hc hd ha hne]
  refine ⟨?_, ?_, ?_, ?_⟩
  · rw [runActions_success c rd _ hres, hanyErr]
    simp
  · rw [runActions_answer c rd _ hres]
    simp [hanyErr]
  · rcases hob : (dispatch c b).1 with w | m
    · rw [hob] at hbe
      simp only [failsWithError] at hbe
      by_cases hw : isErrorDict w = true
      case neg =>
        rw [if_neg hw] at hbe
        exact absurd hbe (by simp)
      case pos =>
        rw [hagg, hstep1, processAction_errorDict c _ b w hob hw]
        dsimp only
        split
        · rw [dictGet_insert_ne _ _ _ _
            (Ne.symm (ne_of_contains_mismatch _ _ hnameok
              (contains_error_of_details_suffix b.tool_name)))]
          rw [dictGet_insert_ne _ _ _ _
            (Ne.symm (ne_of_contains_mismatch _ _ hnameok
              (contains_error_of_error_suffix b.tool_name)))]
          simp [dictGet]
        · rw [dictGet_insert_ne _ _ _ _
            (Ne.symm (ne_of_contains_mismatch _ _ hnameok
              (contains_error_of_error_suffix b.tool_name)))]
          simp [dictGet]
    · rw [hagg, hstep1, processAction_exn c _ b m hob]
      dsimp only
      rw [dictGet_insert_ne _ _ _ _
        (Ne.symm (ne_of_contains_mismatch _ _ hnameok
          (contains_error_of_exec_suffix b.tool_name)))]
      simp [dictGet]
  · rcases hob : (dispatch c b).1 with w | m
    · rw [hob] at hbe
      simp only [failsWithError] at hbe
      by_cases hw : isErrorDict w = true
      case neg =>
        rw [if_neg hw] at hbe
        exact absurd hbe (by simp)
      case pos =>
        rw [if_pos hw] at hbe
        injection hbe with he2
        rw [hagg, hstep1, processAction_errorDict c _ b w hob hw]
        dsimp only [failKey]
        split
        · rw [dictGet_insert_ne _ _ _ _
            (append_suffix_ne b.tool_name "_error_details" "_error" (by decide))]
          rw [dictGet_insert_self, he2]
        · rw [dictGet_insert_self, he2]
    · rw [hob] at hbe
      simp only [failsWithError] at hbe
      injection hbe with he2
      rw [hagg, hstep1, processAction_exn c _ b m hob]
      dsimp only [failKey]
      rw [dictGet_insert_self, he2]

/-- Witness for C2: the events call succeeds, the unconfigured balance call
fails, and both outcomes are visible in the answer mapping. -/
theorem partial_failure_keeps_success_value_witness :
    (handle_query_endpoint cErr rdPartial).success = false ∧
      (handle_query_endpoint cErr rdPartial).answer =
        .dict (aggregateActions cErr [actEvents, actBalance]).results ∧
      dictGet (aggregateActions cErr [actEvents, actBalance]).results "get_fukuoka_events" =
        some (get_fukuoka_events_service (.str "today") .none .none) ∧
      dictGet (aggregateActions cErr [actEvents, actBalance]).results "get_sol_balance_error" =
        some (.str "Helius API Key not configured") :=
  partial_failure_keeps_success_value cErr rdPartial actEvents actBalance
    (get_fukuoka_events_service (.str "today") .none .none)
    (.str "Helius API Key not configured") rfl rfl rfl rfl rfl rfl rfl rfl

/-- Counterexample to C3 as stated: with a present-but-empty tool-call list
(the "zero calls" case) the answer is the fixed string of the NoActionError
branch, not a mapping from tool names. -/
theorem single_action_answer_zero_case_cex :
    (handle_query_endpoint cDemo rdEmpty).answer =
      .str "LLM did not suggest any actionable steps." ∧
    (handle_query_endpoint cDemo rdEmpty).answer.isDict = false :=
  ⟨rfl, rfl⟩

/-- C3 (amended): a single successful call is answered with its bare value;
a non-empty batch that is not a single all-successful call is answered with
the aggregation mapping; with zero calls the endpoint short-circuits to the
fixed NoActionError string answer and success false. -/
theorem answer_shape_single_multi_zero :
    (∀ (c : Collaborators) (rd : RoutingDecision) (a : Action) (v : Value),
      pyTruthyO rd.error = false → pyTruthyO rd.clarification_needed = false →
      pyTruthyO rd.direct_answer = false → rd.actions = some [a] →
      (dispatch c a).1 = .ok v → isErrorDict v = false → v.isNone = false →
      (handle_query_endpoint c rd).answer = v) ∧
    (∀ (c : Collaborators) (rd : RoutingDecision) (acts : List Action),
      pyTruthyO rd.error = false → pyTruthyO rd.clarification_needed = false →
      pyTruthyO rd.direct_answer = false → rd.actions = some acts → acts ≠ [] →
      ¬(acts.length = 1 ∧ ∀ a ∈ acts, producesProperValue c a) →
      (handle_query_endpoint c rd).answer = .dict (aggregateActions c acts).results) ∧
    (∀ (c : Collaborators) (rd : RoutingDecision),
      pyTruthyO rd.error = false → pyTruthyO rd.clarification_needed = false →
      pyTruthyO rd.direct_answer = false → rd.actions = some [] →
      (handle_query_endpoint c rd).answer =
        .str "LLM did not suggest any actionable steps." ∧
      (handle_query_endpoint c rd).success = false) := by
  refine ⟨?_, ?_, ?_⟩
  · intro c rd a v he hc hd ha hav hane hann
    have hne : ([a] : List Action) ≠ [] := by simp
    rw [handle_eq_runActions c rd [a] he hc hd ha hne]
    have hres : (aggregateActions c [a]).results ≠ [] := foldl_results_ne_nil c _ _ hne
    rw [runActions_answer c rd _ hres]
    have hstep : aggregateActions c [a] =
        { results := [(a.tool_name, v)], dsu := ["Tool: " ++ a.tool_name],
          anyError := false } := by
      rw [show aggregateActions c [a] = processAction c ⟨[], [], false⟩ a from rfl]
      rw [processAction_proper c _ a v hav hane hann]
      rfl
    rw [hstep]
    simp [firstValue]
  · intro c rd acts he hc hd ha hne hnot
    rw [handle_eq_runActions c rd acts he hc hd ha hne]
    have hres : (aggregateActions c acts).results ≠ [] := foldl_results_ne_nil c _ _ hne
    rw [runActions_answer c rd _ hres]
    have hcond : (decide (acts.length = 1) && !(aggregateActions c acts).anyError) = false := by
      by_cases hlen : acts.length = 1
      · have hnp : ¬∀ a ∈ acts, producesProperValue c a := fun hall => hnot ⟨hlen, hall⟩
        have hany : (aggregateActions c acts).anyError = true := by
          rw [aggregateActions_def, foldl_anyError]
          push_neg at hnp
          rcases hnp with ⟨a, hmem, hnpa⟩
          have : properB (dispatch c a).1 = false := by
            rcases hq : properB (dispatch c a).1 with _ | _
            · rfl
            · exact absurd ((producesProperValue_iff c a).mpr hq) hnpa
          have : acts.any (fun a => !properB (dispatch c a).1) = true :=
            List.any_eq_true.mpr ⟨a, hmem, by simp [this]⟩
          simp [this]
        simp [hany]
      · simp [hlen]
    rw [hcond]
    simp
  · intro c rd he hc hd ha
    unfold handle_query_endpoint
    rw [he, hc, hd, ha]
    simp

/-- Witness for C3 (amended): the single successful events call is answered
with its bare value. -/
theorem answer_shape_single_multi_zero_witness :
    (handle_query_endpoint cDemo rdEvents).answer =
      get_fukuoka_events_service (.str "today") .none .none :=
  answer_shape_single_multi_zero.1 cDemo rdEvents actEvents
    (get_fukuoka_events_service (.str "today") .none .none) rfl rfl rfl rfl rfl rfl rfl

/-- Counterexample to C4 as stated: a present-but-empty tool-call list
yields error type NoActionError, not ActionExecutionError. -/
theorem empty_actions_no_action_error_cex :
    (handle_query_endpoint cDemo rdEmpty).error =
      some { type := "NoActionError", message := "No action determined by LLM" } ∧
    "NoActionError" ≠ "ActionExecutionError" :=
  ⟨rfl, by decide⟩

/-- C4 (amended): a routing decision whose tool-call list is present but
empty is treated like an absent list and yields a NoActionError failure; no
response of the endpoint ever carries an ActionExecutionError (that branch
requires a non-empty batch which produced an empty aggregation, and every
iteration of the loop inserts a key, so it is unreachable). -/
theorem empty_actions_yields_no_action_error :
    (∀ (c : Collaborators) (rd : RoutingDecision),
      pyTruthyO rd.error = false → pyTruthyO rd.clarification_needed = false →
      pyTruthyO rd.direct_answer = false → rd.actions = some [] →
      (handle_query_endpoint c rd).error =
        some { type := "NoActionError", message := "No action determined by LLM" } ∧
      (handle_query_endpoint c rd).success = false) ∧
    (∀ (c : Collaborators) (rd : RoutingDecision) (ed : ErrorDetail),
      (handle_query_endpoint c rd).error = some ed → ed.type ≠ "ActionExecutionError") := by
  constructor
  · intro c rd he hc hd ha
    unfold handle_query_endpoint
    rw [he, hc, hd, ha]
    simp
  · intro c rd ed hed
    unfold handle_query_endpoint at hed
    split at hed
    · simp only [Option.some.injEq] at hed
      rw [← hed]
      simp
    · split at hed
      · exact absurd hed (by simp)
      · split at hed
        · exact absurd hed (by simp)
        · split at hed
          · simp only [Option.some.injEq] at hed
            rw [← hed]
            decide
          · rename_i h4
            have hne : (rd.actions.getD []) ≠ [] := by
              intro hnil
              rw [hnil] at h4
              simp at h4
            rcases runActions_error_cases c rd _ hne with h5 | h5
            · rw [h5] at hed
              exact absurd hed (by simp)
            · rw [h5] at hed
              simp only [Option.some.injEq] at hed
              rw [← hed]
              decide

/-- Witness for C4 (amended): the concrete empty decision yields the
NoActionError failure. -/
theorem empty_actions_yields_no_action_error_witness :
    (handle_query_endpoint cDemo rdEmpty).error =
      some { type := "NoActionError", message := "No action determined by LLM" } ∧
    (handle_query_endpoint cDemo rdEmpty).success = false :=
  empty_actions_yields_no_action_error.1 cDemo rdEmpty rfl rfl rfl rfl

/-- Counterexample to C5 as stated: a call to analyze_text_sentiment with
no arguments produces the ValueError message of main.py, filed as an
execution error, not a result with error "missing parameter: <name>". -/
theorem missing_parameter_message_cex :
    dispatch cDemo { tool_name := "analyze_text_sentiment", arguments := [] } =
      (.exn "Missing \x27text_to_analyze\x27 or \x27topic\x27 for analyze_text_sentiment tool.", []) ∧
    "Missing \x27text_to_analyze\x27 or \x27topic\x27 for analyze_text_sentiment tool." ≠
      "missing parameter: text_to_analyze" ∧
    (handle_query_endpoint cDemo rdSentimentNoArgs).answer =
      .dict [("analyze_text_sentiment_execution_error",
        .str "Missing \x27text_to_analyze\x27 or \x27topic\x27 for analyze_text_sentiment tool.")] :=
  ⟨rfl, by decide, rfl⟩

/-- C5 (amended): an analyze_text_sentiment call whose text_to_analyze or
topic argument is missing or falsy raises the tool-specific ValueError
before any backing collaborator is invoked, so the dispatch yields that
exception message and an empty invocation list. -/
theorem analyze_sentiment_missing_args (c : Collaborators) (args : List (String × Value))
    (h : pyTruthy (argGet args "text_to_analyze") = false ∨
      pyTruthy (argGet args "topic") = false) :
    dispatch c { tool_name := "analyze_text_sentiment", arguments := args } =
      (.exn "Missing \x27text_to_analyze\x27 or \x27topic\x27 for analyze_text_sentiment tool.", []) := by
  have hcond : (!pyTruthy (argGet args "text_to_analyze") ||
      !pyTruthy (argGet args "topic")) = true := by
    rcases h with h | h <;> simp [h]
  simp [dispatch, hcond]

/-- Witness for C5 (amended): the empty-argument call. -/
theorem analyze_sentiment_missing_args_witness :
    dispatch cDemo
        { tool_name := "analyze_text_sentiment",
          arguments := [("topic", .str "Mad Lads")] } =
      (.exn "Missing \x27text_to_analyze\x27 or \x27topic\x27 for analyze_text_sentiment tool.", []) :=
  analyze_sentiment_missing_args cDemo [("topic", .str "Mad Lads")] (Or.inl rfl)

/-- Counterexample to C6 as stated: the unknown-tool result message is the
main.py "not implemented" message, not "unknown tool". -/
theorem unknown_tool_message_cex :
    dispatch cDemo { tool_name := "frobnicate", arguments := [] } =
      (.ok (.dict [("error",
        .str "Tool \x27frobnicate\x27 not implemented in main.py handler.")]), []) ∧
    "Tool \x27frobnicate\x27 not implemented in main.py handler." ≠ "unknown tool" :=
  ⟨rfl, by decide⟩

/-- C6 (amended): a tool call whose name is not in the dispatch chain (the
eight catalog tools plus get_wallet_portfolio_summary) invokes no backing
collaborator and yields the error dict
"Tool \x27<name>\x27 not implemented in main.py handler.". -/
theorem unknown_tool_dispatch (c : Collaborators) (name : String)
    (args : List (String × Value)) (h : name ∉ handledToolNames) :
    dispatch c { tool_name := name, arguments := args } =
      (.ok (.dict [("error",
        .str ("Tool \x27" ++ name ++ "\x27 not implemented in main.py handler."))]), []) :=
  dispatch_unknown c { tool_name := name, arguments := args } h

/-- Witness for C6 (amended). -/
theorem unknown_tool_dispatch_witness :
    dispatch cDemo { tool_name := "get_weather", arguments := [("city", .str "Fukuoka")] } =
      (.ok (.dict [("error",
        .str ("Tool \x27" ++ "get_weather" ++ "\x27 not implemented in main.py handler."))]), []) :=
  unknown_tool_dispatch cDemo "get_weather" [("city", .str "Fukuoka")] (by decide)

/-- Counterexample to C7 as stated: a collaborator function call naming an
uncatalogued tool is kept verbatim in the routing decision (and no error or
diagnostic accompanies it), rather than being dropped. -/
theorem unknown_tool_not_dropped_cex :
    (route_query_with_llm true (.ok respBogus)).actions =
      some [{ tool_name := "bogus_tool", arguments := [] }] ∧
    (route_query_with_llm true (.ok respBogus)).error = Option.none ∧
    "bogus_tool" ∉ SOLQUERY_TOOL_NAMES :=
  ⟨rfl, rfl, by decide⟩

/-- C7 (amended): whenever the collaborator response contains at least one
function call, the routing decision is exactly the list of all named calls,
registered or not; unknown names are only rejected later, at execution. -/
theorem router_passes_all_calls (resp : GeminiResponse) (h : extractCalls resp ≠ []) :
    route_query_with_llm true (.ok resp) = { actions := some (extractCalls resp) } := by
  unfold route_query_with_llm
  simp [isEmpty_false_of_ne_nil _ h]

/-- Witness for C7 (amended). -/
theorem router_passes_all_calls_witness :
    route_query_with_llm true (.ok respBogus) = { actions := some (extractCalls respBogus) } :=
  router_passes_all_calls respBogus (fun h => List.noConfusion h)

/-- C8: with no tool calls and non-empty free text, the router returns a
clarification when the text contains a question mark or the marker
"clarification_needed" (case-insensitively), and a direct answer
otherwise. -/
theorem free_text_clarification_or_direct (resp : GeminiResponse)
    (hnc : extractCalls resp = []) (ht : resp.text ≠ "") :
    route_query_with_llm true (.ok resp) =
      (if strContains (strToLower resp.text) "clarification_needed" ||
          strContains resp.text "?" then
        { clarification_needed := some (.str resp.text) }
      else { direct_answer := some (.str resp.text) }) := by
  have hstep : route_query_with_llm true (.ok resp) =
      (if !(extractCalls resp).isEmpty then { actions := some (extractCalls resp) }
       else if pyTruthy (.str resp.text) then
         (if strContains (strToLower resp.text) "clarification_needed" ||
             strContains resp.text "?" then
           { clarification_needed := some (.str resp.text) }
         else { direct_answer := some (.str resp.text) })
       else { error := some (.str "LLM did not suggest an action or provide a text response.") }) := rfl
  rw [hstep, hnc]
  simp [pyTruthy, data_isEmpty_false_of_ne resp.text ht]

/-- Witness for C8: the question "Which wallet?" is routed to
ClarificationNeeded. -/
theorem free_text_clarification_or_direct_witness :
    route_query_with_llm true (.ok respWhichWallet) =
      { clarification_needed := some (.str "Which wallet?") } := by
  rw [free_text_clarification_or_direct respWhichWallet rfl (by decide)]
  rfl

/-- C9 (implicit): the aggregation mapping is keyed only by tool names and
their error-suffixed variants, so two same-name calls with the same outcome
kind collide: after two successful calls with tool name `n`, the mapping
holds exactly one entry for `n`, carrying the second value; the first value
is overwritten. -/
theorem duplicate_tool_name_overwrites :
    (∀ (c : Collaborators) (acts : List Action) (key : String),
      key ∈ (aggregateActions c acts).results.map Prod.fst →
      ∃ a, a ∈ acts ∧ (key = a.tool_name ∨ key = a.tool_name ++ "_error"
        ∨ key = a.tool_name ++ "_error_details"
        ∨ key = a.tool_name ++ "_execution_error")) ∧
    (∀ (c : Collaborators) (rd : RoutingDecision) (n : String)
        (args1 args2 : List (String × Value)) (v1 v2 : Value),
      pyTruthyO rd.error = false → pyTruthyO rd.clarification_needed = false →
      pyTruthyO rd.direct_answer = false →
      rd.actions = some [⟨n, args1⟩, ⟨n, args2⟩] →
      (dispatch c ⟨n, args1⟩).1 = .ok v1 → isErrorDict v1 = false → v1.isNone = false →
      (dispatch c ⟨n, args2⟩).1 = .ok v2 → isErrorDict v2 = false → v2.isNone = false →
      (aggregateActions c [⟨n, args1⟩, ⟨n, args2⟩]).results = [(n, v2)] ∧
      (handle_query_endpoint c rd).answer = .dict [(n, v2)]) := by
  constructor
  · intro c acts key h
    rcases foldl_keys c acts ⟨[], [], false⟩ key (aggregateActions_def c acts ▸ h) with h2 | h2
    · simp at h2
    · exact h2
  · intro c rd n args1 args2 v1 v2 he hc hd ha h1 h1e h1n h2 h2e h2n
    have hstep : (aggregateActions c [⟨n, args1⟩, ⟨n, args2⟩]).results = [(n, v2)] := by
      rw [show aggregateActions c [⟨n, args1⟩, ⟨n, args2⟩] =
        processAction c (processAction c ⟨[], [], false⟩ ⟨n, args1⟩) ⟨n, args2⟩ from rfl]
      rw [processAction_proper c _ _ v1 h1 h1e h1n]
      rw [processAction_proper c _ _ v2 h2 h2e h2n]
      dsimp only
      simp [dictInsert]
    refine ⟨hstep, ?_⟩
    have hne : ([⟨n, args1⟩, ⟨n, args2⟩] : List Action) ≠ [] := by simp
    rw [handle_eq_runActions c rd _ he hc hd ha hne]
    have hresne : (aggregateActions c [⟨n, args1⟩, ⟨n, args2⟩]).results ≠ [] :=
      foldl_results_ne_nil c _ _ hne
    rw [runActions_answer c rd _ hresne, hstep]
    simp

/-- Witness for C9: two get_crypto_payment_info calls in one batch; only the
second call survives in the answer mapping. -/
theorem duplicate_tool_name_overwrites_witness :
    (aggregateActions cDemo [actPay1, actPay2]).results =
      [("get_crypto_payment_info",
        .dict [("topic", .str "how to buy sol for a tourist"),
          ("information", .str "As a tourist, you can buy SOL or USDC on Solana from major international crypto exchanges like Coinbase, Binance, or Kraken using your home currency/cards. Then, transfer it to your self-custody Solana wallet (e.g., Phantom) to use.")])] ∧
    (handle_query_endpoint cDemo rdDup).answer =
      .dict [("get_crypto_payment_info",
        .dict [("topic", .str "how to buy sol for a tourist"),
          ("information", .str "As a tourist, you can buy SOL or USDC on Solana from major international crypto exchanges like Coinbase, Binance, or Kraken using your home currency/cards. Then, transfer it to your self-custody Solana wallet (e.g., Phantom) to use.")])] :=
  duplicate_tool_name_overwrites.2 cDemo rdDup "get_crypto_payment_info"
    [("topic", .str "solana pay")] [("topic", .str "how to buy sol for a tourist")] _ _
    rfl rfl rfl rfl rfl rfl rfl rfl rfl rfl

/-- C10 (implicit): `get_fukuoka_events_service` depends only on the
`accepts_crypto` argument; any two invocations differing only in
`timeframe` and `event_type` return identical values. -/
theorem events_ignore_timeframe_and_type (t1 t2 e1 e2 ac : Value) :
    get_fukuoka_events_service t1 e1 ac = get_fukuoka_events_service t2 e2 ac := rfl
end SolQuery
